import Mathlib

/-!
Shallow embedding of the adaptive-precision GPU governor
(`src/core/precision.py`, `src/core/gpu_controller.py`,
`src/core/complexity_analyzer.py`, `src/core/analyzer.py`,
`src/analyzer/fast_complexity_analyzer.py`).

Python floats are modelled as exact rationals (`ℚ`); every numeric literal in
the source is an exact decimal fraction, and all comparisons relevant to the
verified properties are far from floating-point rounding boundaries.
Python strings are modelled as `String` / `List Char` (ASCII case mapping).
Methods that mutate `self` are modelled by explicit state passing; Python
exceptions are modelled with `Except`.
-/

namespace GPUCons

/-- `EnergyMetrics` dataclass from `src/core/precision.py` (lines 8-15). -/
structure EnergyMetrics where
  fp_tier : String
  power_saved_percent : ℚ
  memory_saved_percent : ℚ
  relative_speed : ℚ
  cumulative_energy_saved : ℚ
deriving DecidableEq

/-- Characteristics row of the `PrecisionManager.TIERS` class dictionary. -/
structure TierChars where
  power_saved_percent : ℚ
  memory_saved_percent : ℚ
  relative_speed : ℚ
deriving DecidableEq

/-- The `PrecisionManager.TIERS` dictionary (`precision.py` lines 21-42),
modelled as a lookup function (dictionary access returns `none` for a
missing key). -/
def TIERS : String → Option TierChars
  | "fp4" => some ⟨65.0, 75.0, 2.2⟩
  | "fp8" => some ⟨55.0, 60.0, 2.0⟩
  | "fp16" => some ⟨45.0, 50.0, 1.5⟩
  | "fp32" => some ⟨0.0, 0.0, 1.0⟩
  | _ => none

/-- The threshold ladder of `PrecisionManager.select_precision`
(`precision.py` lines 57-65). -/
def select_tier (complexity : ℚ) : String :=
  if complexity ≤ 0.05 then "fp4"
  else if complexity ≤ 0.2 then "fp8"
  else if complexity ≤ 0.7 then "fp16"
  else "fp32"

/-- `PrecisionManager.select_precision` (`precision.py` lines 48-77).
The method reads no mutable state (`self.TIERS` is a class constant and is
never assigned anywhere in the repository), so the pure part is a function
of the complexity score alone.  `self.TIERS[tier]` is dictionary indexing;
for each tier produced by the ladder the key is present, so the `getD`
default is never taken. -/
def select_precision (complexity : ℚ) : String × EnergyMetrics :=
  let tier := select_tier complexity
  let chars := (TIERS tier).getD ⟨0.0, 0.0, 1.0⟩
  (tier,
    { fp_tier := tier
      power_saved_percent := chars.power_saved_percent
      memory_saved_percent := chars.memory_saved_percent
      relative_speed := chars.relative_speed
      cumulative_energy_saved := 0.0 })

/-- Mutable instance state of `PrecisionManager` (`precision.py` lines 44-46);
the logger carries no data relevant to any claim. -/
structure PMState where
  current_fp_tier : String
deriving DecidableEq

/-- `PrecisionManager.select_precision` with the instance state made explicit:
the method body contains no assignment to `self`, so the state is returned
unchanged. -/
def select_precision_st (st : PMState) (complexity : ℚ) :
    (String × EnergyMetrics) × PMState :=
  (select_precision complexity, st)

/-- Tier order fp4 < fp8 < fp16 < fp32 used by the spec
(unknown strings are mapped above all tiers). -/
def tier_index : String → ℕ
  | "fp4" => 0
  | "fp8" => 1
  | "fp16" => 2
  | "fp32" => 3
  | _ => 4

/-- The `power_used` local of `PrecisionManager.compute_energy_saved`
(`precision.py` lines 133-138). -/
def power_used_of (power_baseline : ℚ) (power_actual : Option ℚ)
    (metrics : EnergyMetrics) : ℚ :=
  match power_actual with
  | some p => p
  | none => power_baseline * (1.0 - metrics.power_saved_percent / 100.0)

/-- `PrecisionManager.compute_energy_saved` (`precision.py` lines 115-148).
The method mutates `metrics.cumulative_energy_saved`; we return the updated
metrics next to the Python return value. -/
def compute_energy_saved (duration power_baseline : ℚ)
    (power_actual : Option ℚ) (metrics : EnergyMetrics) :
    ℚ × EnergyMetrics :=
  let power_used := power_used_of power_baseline power_actual metrics
  let baseline_joules := power_baseline * duration
  let actual_joules := power_used * duration
  let joules_saved := max 0.0 (baseline_joules - actual_joules)
  (joules_saved,
    { metrics with
        cumulative_energy_saved := metrics.cumulative_energy_saved + joules_saved })

/-- One call to `compute_energy_saved` as a data point (its three
non-metrics arguments). -/
structure EnergyCall where
  duration : ℚ
  power_baseline : ℚ
  power_actual : Option ℚ

/-- Threading one `EnergyMetrics` instance through a sequence of
`compute_energy_saved` calls. -/
def run_energy_calls (m : EnergyMetrics) (calls : List EnergyCall) :
    EnergyMetrics :=
  calls.foldl
    (fun acc c => (compute_energy_saved c.duration c.power_baseline c.power_actual acc).2)
    m

/-! ### String machinery shared by the estimators

The estimators use `re` patterns over lowercased text.  The patterns involved
use only literals, the classes `\d`, `\s`, `\w`, `[xX×]`, `[_-]`, `[=:]`,
`[sz]`, bounded/unbounded digit groups, `\b` word boundaries, a lazy `.*?`
and ordered alternation; each is compiled below into an explicit scanner
with exactly the backtracking behaviour the pattern has on these inputs. -/

/-- Python `str.lower` for the ASCII range (the repository's patterns and
keywords are all ASCII). -/
def pyLowerChar (c : Char) : Char :=
  if 'A' ≤ c ∧ c ≤ 'Z' then Char.ofNat (c.toNat + 32) else c

/-- Lowercase a character list. -/
def pyLower (l : List Char) : List Char := l.map pyLowerChar

/-- Python regex `\w` (ASCII): letters, digits, underscore. -/
def isWordChar (c : Char) : Bool := c.isAlphanum || c = '_'

/-- Python `\s` / `str.strip` whitespace: space, tab, newline, carriage
return, vertical tab, form feed. -/
def isPySpace (c : Char) : Bool :=
  c = ' ' || c = '\t' || c = '\n' || c = '\r' || c.toNat = 11 || c.toNat = 12

/-- Value of a digit-character string (captures are converted with `int`). -/
def digitsToNat (l : List Char) : ℕ :=
  l.foldl (fun n c => 10 * n + (c.toNat - 48)) 0

/-- Remainder of `l` after a literal word `w`, when `l` starts with `w`. -/
def stripLit : List Char → List Char → Option (List Char)
  | [], l => some l
  | _ :: _, [] => none
  | w :: ws, c :: cs => if c = w then stripLit ws cs else none

/-- Number of maximal runs of `\w` characters, i.e. the length of
`re.findall(r"\w+", s)`.  The boolean records whether the previous
character was a word character. -/
def countTokenRuns : List Char → Bool → ℕ
  | [], _ => 0
  | c :: rest, inRun =>
    if isWordChar c then
      (if inRun then 0 else 1) + countTokenRuns rest true
    else
      countTokenRuns rest false

/-! ### Module-level estimator (`src/core/complexity_analyzer.py`) -/

/-- Attempted match of `(\d{1,6})\s*[x×]\s*(\d{1,6})` at the head of the
list, returning the two captures and the remainder after the match.
A leading digit run longer than 6 makes every backtracking split of the
first group hit a digit where `[x×]` is required, so the first group
matches exactly a run of length 1..6; the second group greedily takes the
first `min 6` digits of the following run. -/
def tryMatrixSizeAt (l : List Char) : Option (ℕ × ℕ × List Char) :=
  let d1 := l.takeWhile Char.isDigit
  if d1.length = 0 ∨ 6 < d1.length then none
  else
    match (l.drop d1.length).dropWhile isPySpace with
    | [] => none
    | c :: rest =>
      if c = 'x' ∨ c = '×' then
        let afterSp := rest.dropWhile isPySpace
        let run2 := afterSp.takeWhile Char.isDigit
        if run2.length = 0 then none
        else
          let d2 := run2.take 6
          some (digitsToNat d1, digitsToNat d2, afterSp.drop d2.length)
      else none

/-- `re.finditer` loop for the matrix pattern: leftmost, non-overlapping
matches; every match consumes at least one character, so the length of the
input is sufficient fuel. -/
def matrixSizeMatches : ℕ → List Char → List (ℕ × ℕ)
  | 0, _ => []
  | _ + 1, [] => []
  | fuel + 1, c :: rest =>
    match tryMatrixSizeAt (c :: rest) with
    | some (a, b, rem) => (a, b) :: matrixSizeMatches fuel rem
    | none => matrixSizeMatches fuel rest

/-- Tail `\s*[:=]?\s*(\d{1,6})` of the batch-size pattern: the character
classes are pairwise disjoint, so greedy matching is deterministic. -/
def batchTail (l : List Char) : Option ℕ :=
  let l1 := l.dropWhile isPySpace
  let l2 :=
    match l1 with
    | c :: rest => if c = ':' ∨ c = '=' then rest else l1
    | [] => l1
  let ds := ((l2.dropWhile isPySpace).takeWhile Char.isDigit).take 6
  if ds.length = 0 then none else some (digitsToNat ds)

/-- Attempted match of `(?:batch\s*size|bs)\s*[:=]?\s*(\d{1,6})` at the head
of the list (alternatives tried in pattern order). -/
def tryBatchSizeAt (l : List Char) : Option ℕ :=
  let branch1 :=
    match stripLit "batch".data l with
    | some r1 =>
      match stripLit "size".data (r1.dropWhile isPySpace) with
      | some r2 => batchTail r2
      | none => none
    | none => none
  match branch1 with
  | some n => some n
  | none =>
    match stripLit "bs".data l with
    | some r => batchTail r
    | none => none

/-- `re.search` for the batch-size pattern: first position (left to right)
with a match. -/
def searchBatchSize : ℕ → List Char → Option ℕ
  | 0, _ => none
  | _ + 1, [] => none
  | fuel + 1, c :: rest =>
    match tryBatchSizeAt (c :: rest) with
    | some n => some n
    | none => searchBatchSize fuel rest

/-- Truth of `re.search(r"\bw...", s)` for a literal keyword starting with a
word character: some occurrence of the literal is preceded by a non-word
character (or the start), and, when `reqRight` holds (the pattern ends with
`\b`), followed by a non-word character (or the end).  The boolean argument
tracks whether the previous character was a non-word character. -/
def containsWordAux : ℕ → List Char → Bool → List Char → Bool → Bool
  | 0, _, _, _, _ => false
  | _ + 1, _, _, [], _ => false
  | fuel + 1, w, reqRight, c :: rest, atBoundary =>
    (atBoundary &&
      (match stripLit w (c :: rest) with
       | some rem =>
         if reqRight then
           match rem with
           | [] => true
           | d :: _ => !isWordChar d
         else true
       | none => false)) ||
    containsWordAux fuel w reqRight rest (!isWordChar c)

/-- Keyword presence test (see `containsWordAux`). -/
def containsWord (w : String) (reqRight : Bool) (l : List Char) : Bool :=
  containsWordAux (l.length + 1) w.data reqRight l true

/-- The `keywords` dictionary of `estimate_complexity`
(`complexity_analyzer.py` lines 44-56): each entry as its compiled presence
test together with its severity weight.  `ray[- ]trace` and `optimi[sz]e`
are expanded into their two alternatives; `\bsimulat` has no trailing
boundary. -/
def opKeywordScore (l : List Char) : ℚ :=
  let checks : List (Bool × ℚ) :=
    [ (containsWord "train" true l, 0.9)
    , (containsWord "backprop" true l, 0.95)
    , (containsWord "convolution" true l, 0.8)
    , (containsWord "fft" true l, 0.7)
    , (containsWord "render" true l, 0.9)
    , (containsWord "ray-trace" true l || containsWord "ray trace" true l, 1.0)
    , (containsWord "inference" true l, 0.5)
    , (containsWord "simulat" false l, 0.8)
    , (containsWord "optimise" true l || containsWord "optimize" true l, 0.6)
    , (containsWord "add" true l, 0.05)
    , (containsWord "mean" true l, 0.05) ]
  checks.foldl (fun acc bw => if bw.1 then max acc bw.2 else acc) 0.0

/-- `_norm_log` (`complexity_analyzer.py` lines 7-9), parametric in the
floating-point logarithm: `lg v b` stands for `math.log(v, b)`.  The
logarithm itself is irrational and machine-approximated, so it is kept
abstract; every verified property of the estimator is independent of it. -/
def norm_log (lg : ℚ → ℚ → ℚ) (x base cap : ℚ) : ℚ :=
  let x1 := min (max x 0.0) cap
  min 1.0 (lg (x1 + 1) (base + 1))

/-- Module-level `estimate_complexity` (`complexity_analyzer.py` lines
12-64), parametric in the logarithm used by `_norm_log`.  The guard
`if not prompt or not prompt.strip()` is true exactly when the string is
empty or all whitespace. -/
def estimate_complexity (lg : ℚ → ℚ → ℚ) (prompt : String) : ℚ :=
  if prompt.data.isEmpty ∨ prompt.data.all (fun c => isPySpace c) then 0.0
  else
    let s := pyLower prompt.data
    let token_count := countTokenRuns s false
    let token_factor := min 1.0 ((token_count : ℚ) / 2000.0)
    let matrix_factor :=
      (matrixSizeMatches s.length s).foldl
        (fun acc ab => max acc (norm_log lg ((ab.1 * ab.2 : ℕ) : ℚ) 4096.0 (10 ^ 12)))
        0.0
    let batch_factor :=
      match searchBatchSize s.length s with
      | some n => norm_log lg (n : ℚ) 256.0 (10 ^ 12)
      | none => 0.0
    let size_factor := max matrix_factor batch_factor
    let op_score := opKeywordScore s
    let final := 0.5 * op_score + 0.35 * size_factor + 0.15 * token_factor
    max 0.0 (min 1.0 final)

/-! ### Class estimator `ComplexityAnalyzer` (`src/core/analyzer.py`) -/

/-- Substring membership (Python `w in s`), scanning left to right. -/
def containsSubAux : ℕ → List Char → List Char → Bool
  | 0, _, _ => false
  | _ + 1, w, [] => w.isEmpty
  | fuel + 1, w, c :: rest =>
    (stripLit w (c :: rest)).isSome || containsSubAux fuel w rest

/-- Substring membership on a character list. -/
def containsSub (w : String) (l : List Char) : Bool :=
  containsSubAux (l.length + 1) w.data l

/-- Generic `re.search` driver: first position with a match. -/
def searchFirst (tryAt : List Char → Option ℕ) : ℕ → List Char → Option ℕ
  | 0, _ => none
  | _ + 1, [] => none
  | fuel + 1, c :: rest =>
    match tryAt (c :: rest) with
    | some n => some n
    | none => searchFirst tryAt fuel rest

/-- Attempted match of `(\d+)\s*[xX]\s*(\d+)` at the head of the list (the
input is lowercased first, so only `x` can occur).  Both digit groups are
unbounded: greedy matching takes the whole run, and any backtracking split
puts a digit where `[xX]` is required, so the captures are exactly the two
full runs. -/
def tryMatrixOpsAt (l : List Char) : Option (ℕ × ℕ × List Char) :=
  let d1 := l.takeWhile Char.isDigit
  if d1.length = 0 then none
  else
    match (l.drop d1.length).dropWhile isPySpace with
    | [] => none
    | c :: rest =>
      if c = 'x' then
        let afterSp := rest.dropWhile isPySpace
        let d2 := afterSp.takeWhile Char.isDigit
        if d2.length = 0 then none
        else some (digitsToNat d1, digitsToNat d2, afterSp.drop d2.length)
      else none

/-- `re.findall` loop for `ComplexityAnalyzer.matrix_pattern`. -/
def matrixOpsMatches : ℕ → List Char → List (ℕ × ℕ)
  | 0, _ => []
  | _ + 1, [] => []
  | fuel + 1, c :: rest =>
    match tryMatrixOpsAt (c :: rest) with
    | some (a, b, rem) => (a, b) :: matrixOpsMatches fuel rem
    | none => matrixOpsMatches fuel rest

/-- Tail `\s*[=:]?\s*(\d+)` with an unbounded digit group; the character
classes are disjoint so greedy matching is deterministic. -/
def caDigitTail (l : List Char) : Option ℕ :=
  let l1 := l.dropWhile isPySpace
  let l2 :=
    match l1 with
    | c :: rest => if c = '=' ∨ c = ':' then rest else l1
    | [] => l1
  let ds := (l2.dropWhile isPySpace).takeWhile Char.isDigit
  if ds.length = 0 then none else some (digitsToNat ds)

/-- Attempted match of `batch\s*[_-]?size\s*[=:]?\s*(\d+)` (case-insensitive
in the source; equivalently matched on the lowercased input). -/
def tryCaBatchAt (l : List Char) : Option ℕ :=
  match stripLit "batch".data l with
  | some r1 =>
    let r2 := r1.dropWhile isPySpace
    let r3 :=
      match r2 with
      | c :: rest => if c = '_' ∨ c = '-' then rest else r2
      | [] => r2
    match stripLit "size".data r3 with
    | some r4 => caDigitTail r4
    | none => none
  | none => none

/-- Attempted match of `iterations?\s*[=:]?\s*(\d+)`: the optional `s` is
consumed when present (if present, the tail cannot match without consuming
it, since `s` fits none of the tail's classes). -/
def tryCaIterAt (l : List Char) : Option ℕ :=
  match stripLit "iteration".data l with
  | some r1 =>
    let r2 :=
      match r1 with
      | c :: rest => if c = 's' then rest else r1
      | [] => r1
    caDigitTail r2
  | none => none

/-- `ComplexityAnalyzer._analyze_matrix_ops` (`analyzer.py` lines 43-53). -/
def ComplexityAnalyzer.analyze_matrix_ops (prompt : String) : ℚ :=
  let s := pyLower prompt.data
  let found := matrixOpsMatches s.length s
  if found.isEmpty then 0.0
  else
    let max_size : ℕ := found.foldl (fun acc ab => max acc (ab.1 * ab.2)) 0
    min 1.0 ((max_size : ℚ) / (4096 * 4096 : ℚ))

/-- `ComplexityAnalyzer._analyze_batch_size` (`analyzer.py` lines 55-62). -/
def ComplexityAnalyzer.analyze_batch_size (prompt : String) : ℚ :=
  match searchFirst tryCaBatchAt (prompt.data.length + 1) (pyLower prompt.data) with
  | none => 0.0
  | some size => min 1.0 ((size : ℚ) / 32.0)

/-- `ComplexityAnalyzer._analyze_iterations` (`analyzer.py` lines 64-71). -/
def ComplexityAnalyzer.analyze_iterations (prompt : String) : ℚ :=
  match searchFirst tryCaIterAt (prompt.data.length + 1) (pyLower prompt.data) with
  | none => 0.0
  | some iters => min 1.0 ((iters : ℚ) / 1000.0)

/-- `ComplexityAnalyzer._analyze_precision_needs` (`analyzer.py` lines
73-82). -/
def ComplexityAnalyzer.analyze_precision_needs (prompt : String) : ℚ :=
  let p := pyLower prompt.data
  if containsSub "high precision" p || containsSub "fp32" p then 1.0
  else if containsSub "mixed precision" p || containsSub "fp16" p then 0.5
  else if containsSub "low precision" p || containsSub "int8" p then 0.2
  else 0.5

/-- `ComplexityAnalyzer._analyze_memory_intensity` (`analyzer.py` lines
84-98); `return score or 0.5` yields 0.5 exactly when the accumulated score
is 0.0. -/
def ComplexityAnalyzer.analyze_memory_intensity (prompt : String) : ℚ :=
  let p := pyLower prompt.data
  let indicators : List (String × ℚ) :=
    [("large", 0.8), ("huge", 1.0), ("memory intensive", 0.9),
     ("small", 0.2), ("tiny", 0.1)]
  let score := indicators.foldl
    (fun acc iv => if containsSub iv.1 p then max acc iv.2 else acc) 0.0
  if score = 0.0 then 0.5 else score

/-- `ComplexityAnalyzer.estimate_complexity` (`analyzer.py` lines 34-41):
the weighted sum of the five component scores with the `INDICATORS`
weights, clamped by `min(1.0, max(0.0, weighted_sum))`. -/
def ComplexityAnalyzer.estimate_complexity (prompt : String) : ℚ :=
  let weighted_sum :=
    ComplexityAnalyzer.analyze_matrix_ops prompt * 0.3 +
    ComplexityAnalyzer.analyze_batch_size prompt * 0.2 +
    ComplexityAnalyzer.analyze_iterations prompt * 0.2 +
    ComplexityAnalyzer.analyze_precision_needs prompt * 0.15 +
    ComplexityAnalyzer.analyze_memory_intensity prompt * 0.15
  min 1.0 (max 0.0 weighted_sum)

/-! ### `FastComplexityAnalyzer` (`src/analyzer/fast_complexity_analyzer.py`) -/

/-- `ComplexityScore` dataclass (`fast_complexity_analyzer.py` lines 7-14). -/
structure ComplexityScore where
  raw_score : ℚ
  gpu_power_target : ℤ
  gpu_util_target : ℤ
  memory_clock : ℤ
  core_clock : ℤ
  complexity_level : String
deriving DecidableEq

/-- One profile of the `power_profiles` dictionary. -/
structure PowerProfile where
  power_limit : ℤ
  gpu_util : ℤ
  memory_clock : ℤ
  core_clock : ℤ
deriving DecidableEq

/-- The `power_profiles` dictionary (`fast_complexity_analyzer.py` lines
30-49). -/
def power_profiles : String → Option PowerProfile
  | "low" => some ⟨80, 60, 4000, 1200⟩
  | "medium" => some ⟨150, 85, 6000, 1600⟩
  | "high" => some ⟨250, 100, 7500, 1900⟩
  | _ => none

/-- A tuple returned by `re.findall` for the `data_size` pattern
`\b(\d+)[xX×](\d+)\b|\b(\d+)\s*(GB|MB|K)\b`: either the two dimension
groups or the number/unit groups are non-empty. -/
inductive DataSizeMatch where
  | dims (a b : ℕ)
  | mem (n : ℕ) (unit : String)
deriving DecidableEq

/-- Word boundary after a match ending in a word character: the remainder is
empty or starts with a non-word character. -/
def rightBoundary : List Char → Bool
  | [] => true
  | c :: _ => !isWordChar c

/-- Attempted match of the `data_size` alternation at the head of the list,
which must sit at a left word boundary.  Both `\d+` groups are forced to
whole digit runs by the following literal / boundary (any shorter split
puts a digit where a non-digit is required).  The second alternative's
units `GB|MB|K` are uppercase literals; the analyzer matches against the
lowercased prompt, so that branch can never fire, but it is kept faithful
to the pattern. -/
def tryDataSizeAt (l : List Char) : Option (DataSizeMatch × List Char) :=
  let d1 := l.takeWhile Char.isDigit
  if d1.length = 0 then none
  else
    let rest1 := l.drop d1.length
    let branch1 : Option (DataSizeMatch × List Char) :=
      match rest1 with
      | c :: rest2 =>
        if c = 'x' ∨ c = 'X' ∨ c = '×' then
          let d2 := rest2.takeWhile Char.isDigit
          if d2.length = 0 then none
          else
            let rem := rest2.drop d2.length
            if rightBoundary rem then
              some (.dims (digitsToNat d1) (digitsToNat d2), rem)
            else none
        else none
      | [] => none
    match branch1 with
    | some r => some r
    | none =>
      let rest2 := rest1.dropWhile isPySpace
      let tryUnit := fun (u : String) =>
        match stripLit u.data rest2 with
        | some rem =>
          if rightBoundary rem then some (DataSizeMatch.mem (digitsToNat d1) u, rem)
          else none
        | none => none
      match tryUnit "GB" with
      | some r => some r
      | none =>
        match tryUnit "MB" with
        | some r => some r
        | none => tryUnit "K"

/-- `re.findall` loop for the `data_size` pattern, tracking the left word
boundary. -/
def dataSizeMatchesAux : ℕ → List Char → Bool → List DataSizeMatch
  | 0, _, _ => []
  | _ + 1, [], _ => []
  | fuel + 1, c :: rest, atBoundary =>
    if atBoundary then
      match tryDataSizeAt (c :: rest) with
      | some (m, rem) => m :: dataSizeMatchesAux fuel rem false
      | none => dataSizeMatchesAux fuel rest (!isWordChar c)
    else dataSizeMatchesAux fuel rest (!isWordChar c)

/-- Size in bytes of one `data_size` tuple, as computed by the loop in
`_analyze_data_size` (`fast_complexity_analyzer.py` lines 58-71). -/
def dataSizeBytes : DataSizeMatch → ℕ
  | .dims a b => a * b
  | .mem n u =>
    if containsSub "GB" u.data then n * (1024 * 1024 * 1024)
    else if containsSub "MB" u.data then n * (1024 * 1024)
    else if containsSub "K" u.data then n * 1024
    else n

/-- The normalization ladder of `_analyze_data_size`
(`fast_complexity_analyzer.py` lines 74-81). -/
def sizeBucket (max_size : ℕ) : ℚ :=
  if max_size = 0 then 0.3
  else if max_size < 1024 * 1024 then 0.3
  else if max_size < 1024 * 1024 * 1024 then 0.6
  else 0.9

/-- `FastComplexityAnalyzer._analyze_data_size` (`fast_complexity_analyzer.py`
lines 51-81). -/
def FastComplexityAnalyzer.analyze_data_size (prompt : String) : ℚ :=
  let s := pyLower prompt.data
  let found := dataSizeMatchesAux (s.length + 1) s true
  if found.isEmpty then 0.3
  else sizeBucket (found.foldl (fun acc m => max acc (dataSizeBytes m)) 0)

/-- Ordered-alternation match of one of the literal words at the head of the
list, requiring the trailing `\b`; when a literal matches but the boundary
fails, the next alternative is tried. -/
def tryAltWordAt : List (List Char) → List Char → Option (List Char)
  | [], _ => none
  | a :: rest, l =>
    match stripLit a l with
    | some rem => if rightBoundary rem then some rem else tryAltWordAt rest l
    | none => tryAltWordAt rest l

/-- `len(re.findall(r"\b(w1|w2|...)\b", s))`: count of non-overlapping
matches, tracking the left word boundary. -/
def countAltWords : ℕ → List (List Char) → List Char → Bool → ℕ
  | 0, _, _, _ => 0
  | _ + 1, _, [], _ => 0
  | fuel + 1, alts, c :: rest, atBoundary =>
    if atBoundary then
      match tryAltWordAt alts (c :: rest) with
      | some rem => 1 + countAltWords fuel alts rem false
      | none => countAltWords fuel alts rest (!isWordChar c)
    else countAltWords fuel alts rest (!isWordChar c)

/-- Alternatives of the `ml_ops` pattern
`\b(train|learning|neural|network|deep|CNN|RNN|LSTM)\b` (the uppercase
literals cannot match the lowercased prompt but are kept faithful). -/
def mlOpsAlts : List (List Char) :=
  ["train", "learning", "neural", "network", "deep", "CNN", "RNN", "LSTM"].map String.data

/-- Alternatives of the `matrix_ops` pattern
`\b(matrix|matrices|multiply|multiplication)\b`. -/
def matrixOpsAlts : List (List Char) :=
  ["matrix", "matrices", "multiply", "multiplication"].map String.data

/-- `FastComplexityAnalyzer._analyze_operation_complexity`
(`fast_complexity_analyzer.py` lines 83-93). -/
def FastComplexityAnalyzer.analyze_operation_complexity (prompt : String) : ℚ :=
  let s := pyLower prompt.data
  let ml_ops := countAltWords (s.length + 1) mlOpsAlts s true
  let matrix_ops := countAltWords (s.length + 1) matrixOpsAlts s true
  let score := ((ml_ops : ℚ) * 0.4 + (matrix_ops : ℚ) * 0.3) / 5.0
  min score 1.0

/-- Alternatives of the keyword group `(loop|iterate|epoch|batch|steps?)`:
the greedy `s?` makes `steps` tried before `step`. -/
def iterKeywordAlts : List (List Char) :=
  ["loop", "iterate", "epoch", "batch", "steps", "step"].map String.data

/-- The lazy `.*?(\d+)` tail: skip forward over non-newline characters to
the first digit (`.` does not match a newline), then capture the whole
digit run greedily. -/
def lazyDigits : ℕ → List Char → Option (ℕ × List Char)
  | 0, _ => none
  | _ + 1, [] => none
  | fuel + 1, c :: rest =>
    if c.isDigit then
      let run := (c :: rest).takeWhile Char.isDigit
      some (digitsToNat run, (c :: rest).drop run.length)
    else if c = '\n' then none
    else lazyDigits fuel rest

/-- Attempted match of `\b(loop|iterate|epoch|batch|steps?)\b.*?(\d+)` at the
head of the list (which must sit at a left word boundary), returning the
captured digit group. -/
def tryIterCountAt (l : List Char) : Option (ℕ × List Char) :=
  match tryAltWordAt iterKeywordAlts l with
  | some rem => lazyDigits (rem.length + 1) rem
  | none => none

/-- `re.findall` loop for the `iterations` pattern, collecting the numeric
captures (`match[1]` in the source; always a digit string, so the
`isdigit` guard in the source always holds). -/
def iterCountMatchesAux : ℕ → List Char → Bool → List ℕ
  | 0, _, _ => []
  | _ + 1, [], _ => []
  | fuel + 1, c :: rest, atBoundary =>
    if atBoundary then
      match tryIterCountAt (c :: rest) with
      | some (n, rem) => n :: iterCountMatchesAux fuel rem false
      | none => iterCountMatchesAux fuel rest (!isWordChar c)
    else iterCountMatchesAux fuel rest (!isWordChar c)

/-- The normalization ladder of `_analyze_iterations`
(`fast_complexity_analyzer.py` lines 107-112). -/
def iterBucket (max_iterations : ℕ) : ℚ :=
  if max_iterations < 100 then 0.3
  else if max_iterations < 1000 then 0.6
  else 0.9

/-- `FastComplexityAnalyzer._analyze_iterations`
(`fast_complexity_analyzer.py` lines 95-112). -/
def FastComplexityAnalyzer.analyze_iterations (prompt : String) : ℚ :=
  let s := pyLower prompt.data
  let found := iterCountMatchesAux (s.length + 1) s true
  if found.isEmpty then 0.3
  else iterBucket (found.foldl max 0)

/-- The `try` body of `FastComplexityAnalyzer.analyze_prompt`
(`fast_complexity_analyzer.py` lines 119-150). -/
def FastComplexityAnalyzer.analyze_prompt_body (prompt : String) : ComplexityScore :=
  let data_score := FastComplexityAnalyzer.analyze_data_size prompt
  let op_score := FastComplexityAnalyzer.analyze_operation_complexity prompt
  let iter_score := FastComplexityAnalyzer.analyze_iterations prompt
  let final_score := data_score * 0.4 + op_score * 0.35 + iter_score * 0.25
  let pl :=
    if final_score < 0.4 then (((power_profiles "low").getD ⟨80, 60, 4000, 1200⟩), "low")
    else if final_score < 0.7 then (((power_profiles "medium").getD ⟨80, 60, 4000, 1200⟩), "medium")
    else (((power_profiles "high").getD ⟨80, 60, 4000, 1200⟩), "high")
  { raw_score := final_score
    gpu_power_target := pl.1.power_limit
    gpu_util_target := pl.1.gpu_util
    memory_clock := pl.1.memory_clock
    core_clock := pl.1.core_clock
    complexity_level := pl.2 }

/-- A value passed to `analyze_prompt`: a proper string, or a non-string
(malformed) argument such as `None`, on which the first attribute access
(`prompt.lower()`) raises inside the pattern-matching helpers. -/
inductive PyInput where
  | pyStr (s : String)
  | pyNone
deriving DecidableEq

/-- Running the `try` body of `analyze_prompt` on a call argument: a proper
string computes the score; a malformed argument raises. -/
def FastComplexityAnalyzer.analyze_prompt_run (v : PyInput) :
    Except String ComplexityScore :=
  match v with
  | .pyStr s => .ok (FastComplexityAnalyzer.analyze_prompt_body s)
  | .pyNone => .error "AttributeError: NoneType has no attribute lower"

/-- `FastComplexityAnalyzer.analyze_prompt` (`fast_complexity_analyzer.py`
lines 114-162): the `except` arm logs the failure and returns the safe
default.  The boolean records whether the failure branch logged an error. -/
def FastComplexityAnalyzer.analyze_prompt (v : PyInput) : ComplexityScore × Bool :=
  match FastComplexityAnalyzer.analyze_prompt_run v with
  | .ok r => (r, false)
  | .error _ => (⟨0.3, 80, 60, 4000, 1200, "low"⟩, true)

/-! ### `GPUGovernor` (`src/core/gpu_controller.py`)

The governor calls several attributes that the collaborating classes do not
define; Python resolves attribute access dynamically, so those calls raise
at run time.  We record the attributes each class actually defines (taken
from the class bodies in the source) and model attribute lookup against
those tables, with `Except` capturing the raised exceptions. -/

/-- Exceptions raised by the modelled code paths. -/
inductive PyError where
  | typeError (msg : String)
  | attributeError (msg : String)
deriving DecidableEq

/-- Methods defined on `PrecisionManager` (`precision.py` lines 17-148). -/
def precisionManagerMethods : List String :=
  ["select_precision", "get_execution_context", "compute_energy_saved"]

/-- Methods defined on `ComplexityAnalyzer` (`analyzer.py` lines 5-98);
the underscore-named analysis helpers keep their Python names. -/
def complexityAnalyzerMethods : List String :=
  ["analyze", "estimate_complexity", "_analyze_matrix_ops",
   "_analyze_batch_size", "_analyze_iterations", "_analyze_precision_needs",
   "_analyze_memory_intensity"]

/-- Parameters of `TelemetryManager.__init__` (`telemetry.py` lines 25-30):
only `self`. -/
def telemetryManagerInitParams : List String := ["self"]

/-- `GPUGovernor.map_complexity_to_fp` (`gpu_controller.py` lines 112-152).
For scores in `(0.2, 0.7]` the body calls
`self.precision.analyze_complexity(...)`, an attribute `PrecisionManager`
does not define, so the call raises `AttributeError`; for scores above
`0.7` the body ends without a `return` statement, so Python returns
`None` (modelled as `some` of nothing, i.e. `Option`). -/
def GPUGovernor.map_complexity_to_fp (complexity : ℚ) :
    Except PyError (Option (String × EnergyMetrics)) :=
  if complexity ≤ 0.05 then
    .ok (some ("fp4", ⟨"fp4", 65.0, 75.0, 2.2, 0.0⟩))
  else if complexity ≤ 0.2 then
    .ok (some ("fp8", ⟨"fp8", 55.0, 60.0, 2.0, 0.0⟩))
  else if complexity ≤ 0.7 then
    (if precisionManagerMethods.contains "analyze_complexity" then
      .ok (some (select_precision complexity))
    else
      .error (.attributeError "PrecisionManager has no attribute analyze_complexity"))
  else
    .ok none

/-- `GPUGovernor.__init__` (`gpu_controller.py` lines 43-55):
`ComplexityAnalyzer()` and `PrecisionManager()` construct fine, then
`TelemetryManager(gpu_id)` passes one positional argument to an
`__init__` that accepts only `self`, raising `TypeError`. -/
def GPUGovernor.init_run (_gpu_id : ℤ) : Except PyError Unit :=
  if 2 ≤ telemetryManagerInitParams.length then .ok ()
  else
    .error (.typeError
      "TelemetryManager takes 1 positional argument but 2 were given")

/-- `GPUGovernor.apply_fp_for_workload` (`gpu_controller.py` lines 154-177):
the first statement calls `self.precision.analyze_complexity(...)`, an
attribute `PrecisionManager` does not define. -/
def GPUGovernor.apply_fp_for_workload_run (complexity : ℚ) :
    Except PyError (String × EnergyMetrics) :=
  if precisionManagerMethods.contains "analyze_complexity" then
    .ok (select_precision complexity)
  else
    .error (.attributeError "PrecisionManager has no attribute analyze_complexity")

/-- `GPUGovernor.optimize_for_prompt` (`gpu_controller.py` lines 190-205):
the first statement calls `self.analyzer.analyze_prompt(prompt_text)`, an
attribute `ComplexityAnalyzer` does not define. -/
def GPUGovernor.optimize_for_prompt_run (prompt : String) :
    Except PyError (String × EnergyMetrics) :=
  if complexityAnalyzerMethods.contains "analyze_prompt" then
    GPUGovernor.apply_fp_for_workload_run
      (ComplexityAnalyzer.estimate_complexity prompt)
  else
    .error (.attributeError "ComplexityAnalyzer has no attribute analyze_prompt")

/-! ### Helper lemmas -/

/-- The tier ladder only produces the four tier names. -/
theorem select_tier_cases (c : ℚ) :
    select_tier c = "fp4" ∨ select_tier c = "fp8" ∨
    select_tier c = "fp16" ∨ select_tier c = "fp32" := by
  unfold select_tier
  split_ifs <;> simp

/-- The first component of `select_precision` is the tier ladder. -/
theorem select_precision_fst (c : ℚ) : (select_precision c).1 = select_tier c := rfl

/-- The returned value of `compute_energy_saved`, written out. -/
theorem compute_energy_saved_fst (d pb : ℚ) (pa : Option ℚ) (m : EnergyMetrics) :
    (compute_energy_saved d pb pa m).1 =
      max 0.0 (pb * d - power_used_of pb pa m * d) := rfl

/-- The returned joules are never negative. -/
theorem compute_energy_saved_nonneg (d pb : ℚ) (pa : Option ℚ) (m : EnergyMetrics) :
    0 ≤ (compute_energy_saved d pb pa m).1 := by
  rw [compute_energy_saved_fst]
  exact le_trans (by norm_num) (le_max_left 0.0 _)

/-- One `compute_energy_saved` call never decreases the accumulator. -/
theorem cum_le_compute (d pb : ℚ) (pa : Option ℚ) (m : EnergyMetrics) :
    m.cumulative_energy_saved ≤
      (compute_energy_saved d pb pa m).2.cumulative_energy_saved := by
  have h := compute_energy_saved_nonneg d pb pa m
  show m.cumulative_energy_saved ≤
    m.cumulative_energy_saved + (compute_energy_saved d pb pa m).1
  exact le_add_of_nonneg_right h

/-- A sequence of `compute_energy_saved` calls never decreases the
accumulator. -/
theorem run_energy_calls_cum_le (calls : List EnergyCall) :
    ∀ m : EnergyMetrics,
      m.cumulative_energy_saved ≤ (run_energy_calls m calls).cumulative_energy_saved := by
  induction calls with
  | nil => intro m; exact le_refl _
  | cons c cs ih =>
    intro m
    have h1 := cum_le_compute c.duration c.power_baseline c.power_actual m
    have h2 := ih (compute_energy_saved c.duration c.power_baseline c.power_actual m).2
    exact le_trans h1 h2

/-- Band lemma: scores up to 0.05 select fp4 with its table row. -/
theorem select_precision_fp4 (s : ℚ) (hs : s ≤ 0.05) :
    select_precision s = ("fp4", ⟨"fp4", 65.0, 75.0, 2.2, 0.0⟩) := by
  have ht : select_tier s = "fp4" := by
    unfold select_tier; rw [if_pos hs]
  unfold select_precision; rw [ht]; rfl

/-- Band lemma: scores in (0.05, 0.2] select fp8 with its table row. -/
theorem select_precision_fp8 (s : ℚ) (h1 : 0.05 < s) (h2 : s ≤ 0.2) :
    select_precision s = ("fp8", ⟨"fp8", 55.0, 60.0, 2.0, 0.0⟩) := by
  have ht : select_tier s = "fp8" := by
    unfold select_tier; rw [if_neg (by linarith), if_pos h2]
  unfold select_precision; rw [ht]; rfl

/-- Band lemma: scores in (0.2, 0.7] select fp16 with its table row. -/
theorem select_precision_fp16 (s : ℚ) (h1 : 0.2 < s) (h2 : s ≤ 0.7) :
    select_precision s = ("fp16", ⟨"fp16", 45.0, 50.0, 1.5, 0.0⟩) := by
  have ht : select_tier s = "fp16" := by
    unfold select_tier
    rw [if_neg (by linarith), if_neg (by linarith), if_pos h2]
  unfold select_precision; rw [ht]; rfl

/-- Band lemma: scores above 0.7 select fp32 with its table row. -/
theorem select_precision_fp32 (s : ℚ) (h1 : 0.7 < s) :
    select_precision s = ("fp32", ⟨"fp32", 0.0, 0.0, 1.0, 0.0⟩) := by
  have ht : select_tier s = "fp32" := by
    unfold select_tier
    rw [if_neg (by linarith), if_neg (by linarith), if_neg (by linarith)]
  unfold select_precision; rw [ht]; rfl

/-! ### Claim theorems -/

/-- C1: for every complexity score, `select_precision` returns exactly the
tier and characteristics of the threshold table, with boundaries inclusive
on the lower tier: score ≤ 0.05 → fp4 (65%, 75%, 2.2×); 0.05 < score ≤ 0.2
→ fp8 (55%, 60%, 2.0×); 0.2 < score ≤ 0.7 → fp16 (45%, 50%, 1.5×);
score > 0.7 → fp32 (0%, 0%, 1.0×); in particular at the boundary scores
0.05, 0.050001, 0.7 and 0.70001. -/
theorem C1_tier_table :
    (∀ s : ℚ, s ≤ 0.05 →
      select_precision s = ("fp4", ⟨"fp4", 65.0, 75.0, 2.2, 0.0⟩))
  ∧ (∀ s : ℚ, 0.05 < s → s ≤ 0.2 →
      select_precision s = ("fp8", ⟨"fp8", 55.0, 60.0, 2.0, 0.0⟩))
  ∧ (∀ s : ℚ, 0.2 < s → s ≤ 0.7 →
      select_precision s = ("fp16", ⟨"fp16", 45.0, 50.0, 1.5, 0.0⟩))
  ∧ (∀ s : ℚ, 0.7 < s →
      select_precision s = ("fp32", ⟨"fp32", 0.0, 0.0, 1.0, 0.0⟩))
  ∧ (select_precision 0.05).1 = "fp4"
  ∧ (select_precision 0.050001).1 = "fp8"
  ∧ (select_precision 0.7).1 = "fp16"
  ∧ (select_precision 0.70001).1 = "fp32" := by
  refine ⟨?_, ?_, ?_, ?_,
    by rw [select_precision_fst]; unfold select_tier
       rw [if_pos (by norm_num)],
    by rw [select_precision_fst]; unfold select_tier
       rw [if_neg (by norm_num), if_pos (by norm_num)],
    by rw [select_precision_fst]; unfold select_tier
       rw [if_neg (by norm_num), if_neg (by norm_num), if_pos (by norm_num)],
    by rw [select_precision_fst]; unfold select_tier
       rw [if_neg (by norm_num), if_neg (by norm_num), if_neg (by norm_num)]⟩
  · exact select_precision_fp4
  · exact select_precision_fp8
  · exact select_precision_fp16
  · exact select_precision_fp32

/-- Witness for C1 at concrete scores in each band. -/
theorem C1_tier_table_witness :
    select_precision 0.01 = ("fp4", ⟨"fp4", 65.0, 75.0, 2.2, 0.0⟩)
  ∧ select_precision 0.1 = ("fp8", ⟨"fp8", 55.0, 60.0, 2.0, 0.0⟩)
  ∧ select_precision 0.5 = ("fp16", ⟨"fp16", 45.0, 50.0, 1.5, 0.0⟩)
  ∧ select_precision 0.9 = ("fp32", ⟨"fp32", 0.0, 0.0, 1.0, 0.0⟩) :=
  ⟨C1_tier_table.1 0.01 (by norm_num),
   C1_tier_table.2.1 0.1 (by norm_num) (by norm_num),
   C1_tier_table.2.2.1 0.5 (by norm_num) (by norm_num),
   C1_tier_table.2.2.2.1 0.9 (by norm_num)⟩

/-- C7: tier selection is deterministic (a pure function of the score) and
monotone with respect to the tier order fp4 < fp8 < fp16 < fp32. -/
theorem C7_select_monotone :
    (∀ s1 s2 : ℚ, s1 = s2 → select_precision s1 = select_precision s2)
  ∧ (∀ s1 s2 : ℚ, s1 < s2 →
      tier_index (select_precision s1).1 ≤ tier_index (select_precision s2).1) := by
  constructor
  · intro s1 s2 h; rw [h]
  · intro s1 s2 h
    rw [select_precision_fst, select_precision_fst]
    unfold select_tier
    split_ifs <;> first | decide | (exfalso; linarith)

/-- Witness for C7 at concrete scores. -/
theorem C7_select_monotone_witness :
    select_precision 0.3 = select_precision 0.3
  ∧ tier_index (select_precision 0.1).1 ≤ tier_index (select_precision 0.5).1 :=
  ⟨C7_select_monotone.1 0.3 0.3 rfl,
   C7_select_monotone.2 0.1 0.5 (by norm_num)⟩

/-- C10: `select_precision` leaves the manager state unchanged, its result
is a pure function of the score, and the returned metrics is fresh: its
accumulator is exactly 0.0 and its fields are exactly the `TIERS` row of
the returned tier.  (In this value-level embedding, metrics returned by
distinct calls are distinct values by construction, so they share no
mutable state.) -/
theorem C10_select_frame :
    ∀ (st st2 : PMState) (c : ℚ),
      select_precision_st st c = (select_precision c, st)
    ∧ (select_precision_st st c).1 = (select_precision_st st2 c).1
    ∧ (select_precision c).2.cumulative_energy_saved = 0.0
    ∧ (select_precision c).2.cumulative_energy_saved = 0
    ∧ (select_precision c).2.fp_tier = (select_precision c).1
    ∧ TIERS (select_precision c).1 =
        some ⟨(select_precision c).2.power_saved_percent,
              (select_precision c).2.memory_saved_percent,
              (select_precision c).2.relative_speed⟩ := by
  intro st st2 c
  refine ⟨rfl, rfl, rfl, by norm_num [select_precision], rfl, ?_⟩
  simp only [select_precision]
  rcases select_tier_cases c with h | h | h | h <;> rw [h] <;> rfl

/-- C3 counterexample: with a negative duration and a measured power above
the baseline, `compute_energy_saved` returns 100, not 0 — the claim that
every duration ≤ 0 yields exactly 0 regardless of the measured power is
false on the code (`max(0, (baseline − used) × duration)` is positive when
both factors are negative). -/
theorem C3_negative_duration_cex :
    ((-1 : ℚ) ≤ 0)
  ∧ (compute_energy_saved (-1) 100 (some 200) ⟨"fp16", 45.0, 50.0, 1.5, 0.0⟩).1 = 100
  ∧ (compute_energy_saved (-1) 100 (some 200) ⟨"fp16", 45.0, 50.0, 1.5, 0.0⟩).1 ≠ 0 := by
  refine ⟨by norm_num, ?_, ?_⟩ <;>
    rw [compute_energy_saved_fst] <;> norm_num [power_used_of]

/-- C3 amended: `compute_energy_saved` never returns a negative value and
raises no error; the result is exactly 0 whenever the duration is 0, and
for a negative duration it is exactly 0 provided the used power (measured,
or estimated as baseline × (1 − percent/100)) does not exceed the
baseline. -/
theorem C3_compute_saved_amended :
    (∀ (d pb : ℚ) (pa : Option ℚ) (m : EnergyMetrics),
      0 ≤ (compute_energy_saved d pb pa m).1)
  ∧ (∀ (pb : ℚ) (pa : Option ℚ) (m : EnergyMetrics),
      (compute_energy_saved 0 pb pa m).1 = 0)
  ∧ (∀ (d pb : ℚ) (pa : Option ℚ) (m : EnergyMetrics), d ≤ 0 →
      power_used_of pb pa m ≤ pb → (compute_energy_saved d pb pa m).1 = 0) := by
  refine ⟨compute_energy_saved_nonneg, ?_, ?_⟩
  · intro pb pa m
    rw [compute_energy_saved_fst]
    norm_num
  · intro d pb pa m hd hp
    rw [compute_energy_saved_fst]
    have hx : pb * d - power_used_of pb pa m * d ≤ 0.0 := by nlinarith
    rw [max_eq_left hx]
    norm_num

/-- Witness for C3 amended: a negative duration on the estimated-power path
(fp16 metrics, used power 55 ≤ baseline 100) yields exactly 0. -/
theorem C3_compute_saved_amended_witness :
    (compute_energy_saved (-2) 100 none ⟨"fp16", 45.0, 50.0, 1.5, 0.0⟩).1 = 0 :=
  C3_compute_saved_amended.2.2 (-2) 100 none ⟨"fp16", 45.0, 50.0, 1.5, 0.0⟩
    (by norm_num) (by norm_num [power_used_of])

/-- C4: the accumulator `cumulative_energy_saved` is monotonically
non-decreasing: each `compute_energy_saved` call with duration ≥ 0 leaves
it ≥ its previous value, and it never decreases across any sequence of
such calls on the same metrics instance. -/
theorem C4_cumulative_monotone :
    (∀ (m : EnergyMetrics) (c : EnergyCall), 0 ≤ c.duration →
      m.cumulative_energy_saved ≤
        (compute_energy_saved c.duration c.power_baseline c.power_actual m).2.cumulative_energy_saved)
  ∧ (∀ (m : EnergyMetrics) (calls : List EnergyCall),
      (∀ c ∈ calls, 0 ≤ c.duration) →
      m.cumulative_energy_saved ≤ (run_energy_calls m calls).cumulative_energy_saved) :=
  ⟨fun m c _ => cum_le_compute c.duration c.power_baseline c.power_actual m,
   fun m calls _ => run_energy_calls_cum_le calls m⟩

/-- Witness for C4 on a concrete metrics instance and call sequence. -/
theorem C4_cumulative_monotone_witness :
    (⟨"fp32", 0.0, 0.0, 1.0, 0.0⟩ : EnergyMetrics).cumulative_energy_saved ≤
      (run_energy_calls ⟨"fp32", 0.0, 0.0, 1.0, 0.0⟩
        [⟨2, 100, none⟩, ⟨1, 100, some 40⟩]).cumulative_energy_saved :=
  C4_cumulative_monotone.2 ⟨"fp32", 0.0, 0.0, 1.0, 0.0⟩
    [⟨2, 100, none⟩, ⟨1, 100, some 40⟩]
    (by intro c hc
        simp only [List.mem_cons, List.not_mem_nil, or_false] at hc
        rcases hc with h | h <;> subst h <;> norm_num)

/-- C2 (code bug): the Governor's score-to-tier mapping is not the single
threshold table.  `map_complexity_to_fp` returns `None` for every score
above 0.7 (the function body has no return statement on that path, despite
its `Tuple[str, EnergyMetrics]` annotation), and for scores in (0.2, 0.7]
it raises `AttributeError` because `PrecisionManager` defines no
`analyze_complexity`.  It agrees with `select_precision` only on the fp4
and fp8 bands, where it duplicates the threshold constants inline. -/
theorem C2_single_source_bug :
    GPUGovernor.map_complexity_to_fp 0.8 = .ok none
  ∧ GPUGovernor.map_complexity_to_fp 0.9 = .ok none
  ∧ GPUGovernor.map_complexity_to_fp 0.5 =
      .error (.attributeError "PrecisionManager has no attribute analyze_complexity")
  ∧ GPUGovernor.map_complexity_to_fp 0.04 = .ok (some (select_precision 0.04))
  ∧ GPUGovernor.map_complexity_to_fp 0.1 = .ok (some (select_precision 0.1)) := by
  refine ⟨?_, ?_, ?_, ?_, ?_⟩
  · unfold GPUGovernor.map_complexity_to_fp
    rw [if_neg (by norm_num), if_neg (by norm_num), if_neg (by norm_num)]
  · unfold GPUGovernor.map_complexity_to_fp
    rw [if_neg (by norm_num), if_neg (by norm_num), if_neg (by norm_num)]
  · unfold GPUGovernor.map_complexity_to_fp
    rw [if_neg (by norm_num), if_neg (by norm_num), if_pos (by norm_num)]
    rfl
  · unfold GPUGovernor.map_complexity_to_fp
    rw [if_pos (by norm_num), select_precision_fp4 0.04 (by norm_num)]
  · unfold GPUGovernor.map_complexity_to_fp
    rw [if_neg (by norm_num), if_pos (by norm_num),
      select_precision_fp8 0.1 (by norm_num) (by norm_num)]

/-- C9 (code bug): the Governor's entry points are fatal.  Constructing a
`GPUGovernor` raises `TypeError` (it passes `gpu_id` to
`TelemetryManager.__init__`, which accepts only `self`), and even on a
constructed instance `optimize_for_prompt` raises `AttributeError` on its
first statement (`ComplexityAnalyzer` defines no `analyze_prompt`), as
does `apply_fp_for_workload` (`PrecisionManager` defines no
`analyze_complexity`); no (tier, report) pair is ever returned. -/
theorem C9_governor_fatal_bug :
    GPUGovernor.init_run 0 =
      .error (.typeError "TelemetryManager takes 1 positional argument but 2 were given")
  ∧ GPUGovernor.optimize_for_prompt_run "hello" =
      .error (.attributeError "ComplexityAnalyzer has no attribute analyze_prompt")
  ∧ GPUGovernor.apply_fp_for_workload_run 0.5 =
      .error (.attributeError "PrecisionManager has no attribute analyze_complexity") :=
  ⟨rfl, rfl, rfl⟩

/-- Evaluation of the class estimator on the empty and all-space strings:
no pattern matches, the precision and memory signals default to 0.5 each,
and the weighted sum is 0.5·0.15 + 0.5·0.15 = 0.15. -/
theorem ca_estimate_blank_eval :
    ComplexityAnalyzer.estimate_complexity "" = 0.15
  ∧ ComplexityAnalyzer.estimate_complexity "   " = 0.15 := by
  constructor
  · have m1 : ComplexityAnalyzer.analyze_matrix_ops "" = 0.0 := rfl
    have b1 : ComplexityAnalyzer.analyze_batch_size "" = 0.0 := rfl
    have i1 : ComplexityAnalyzer.analyze_iterations "" = 0.0 := rfl
    have p1 : ComplexityAnalyzer.analyze_precision_needs "" = 0.5 := rfl
    have y1 : ComplexityAnalyzer.analyze_memory_intensity "" = 0.5 := by
      have h : ComplexityAnalyzer.analyze_memory_intensity "" =
          (if (0.0 : ℚ) = 0.0 then 0.5 else 0.0) := rfl
      rw [h, if_pos rfl]
    unfold ComplexityAnalyzer.estimate_complexity
    rw [m1, b1, i1, p1, y1]
    norm_num [max_eq_right, min_eq_right]
  · have m1 : ComplexityAnalyzer.analyze_matrix_ops "   " = 0.0 := rfl
    have b1 : ComplexityAnalyzer.analyze_batch_size "   " = 0.0 := rfl
    have i1 : ComplexityAnalyzer.analyze_iterations "   " = 0.0 := rfl
    have p1 : ComplexityAnalyzer.analyze_precision_needs "   " = 0.5 := rfl
    have y1 : ComplexityAnalyzer.analyze_memory_intensity "   " = 0.5 := by
      have h : ComplexityAnalyzer.analyze_memory_intensity "   " =
          (if (0.0 : ℚ) = 0.0 then 0.5 else 0.0) := rfl
      rw [h, if_pos rfl]
    unfold ComplexityAnalyzer.estimate_complexity
    rw [m1, b1, i1, p1, y1]
    norm_num [max_eq_right, min_eq_right]

/-- C5 counterexample: on the empty string the class estimator
`ComplexityAnalyzer.estimate_complexity` returns 0.15 (its precision and
memory signals default to 0.5 each), not 0.0 — so the claim that every
estimator returns exactly 0.0 on empty input is false on the code. -/
theorem C5_class_estimator_cex :
    ComplexityAnalyzer.estimate_complexity "" = 0.15
  ∧ ComplexityAnalyzer.estimate_complexity "" ≠ 0 :=
  ⟨ca_estimate_blank_eval.1, by rw [ca_estimate_blank_eval.1]; norm_num⟩

/-- C5 amended: for every empty or whitespace-only input the module-level
`estimate_complexity` returns exactly 0.0 (its guard fires before any
signal is computed); the class estimator instead returns 0.15 on such
input (shown at the empty and all-space strings). -/
theorem C5_blank_input_amended :
    (∀ (lg : ℚ → ℚ → ℚ) (s : String),
      s.data.all (fun c => isPySpace c) = true → estimate_complexity lg s = 0)
  ∧ ComplexityAnalyzer.estimate_complexity "" = 0.15
  ∧ ComplexityAnalyzer.estimate_complexity "   " = 0.15 := by
  refine ⟨?_, ca_estimate_blank_eval.1, ca_estimate_blank_eval.2⟩
  intro lg s h
  unfold estimate_complexity
  rw [if_pos (Or.inr h)]
  norm_num

/-- Witness for C5 amended at an all-space string and an arbitrary
logarithm. -/
theorem C5_blank_input_amended_witness :
    estimate_complexity (fun _ _ => 0.5) " " = 0 :=
  C5_blank_input_amended.1 (fun _ _ => 0.5) " " rfl

/-- The fast analyzer's data-size score takes only the ladder values. -/
theorem fast_data_size_cases (s : String) :
    FastComplexityAnalyzer.analyze_data_size s = 0.3 ∨
    FastComplexityAnalyzer.analyze_data_size s = 0.6 ∨
    FastComplexityAnalyzer.analyze_data_size s = 0.9 := by
  simp only [FastComplexityAnalyzer.analyze_data_size, sizeBucket]
  split_ifs <;> simp

/-- The fast analyzer's iteration score takes only the ladder values. -/
theorem fast_iter_cases (s : String) :
    FastComplexityAnalyzer.analyze_iterations s = 0.3 ∨
    FastComplexityAnalyzer.analyze_iterations s = 0.6 ∨
    FastComplexityAnalyzer.analyze_iterations s = 0.9 := by
  simp only [FastComplexityAnalyzer.analyze_iterations, iterBucket]
  split_ifs <;> simp

/-- The fast analyzer's operation score lies in [0, 1]. -/
theorem fast_op_bounds (s : String) :
    0 ≤ FastComplexityAnalyzer.analyze_operation_complexity s ∧
    FastComplexityAnalyzer.analyze_operation_complexity s ≤ 1 := by
  simp only [FastComplexityAnalyzer.analyze_operation_complexity]
  constructor
  · apply le_min
    · positivity
    · norm_num
  · exact le_trans (min_le_right _ _) (by norm_num)

/-- The raw score of the fast analyzer body is the weighted combination of
its three component scores (every profile branch carries the same
`raw_score`). -/
theorem fast_body_raw_score (s : String) :
    (FastComplexityAnalyzer.analyze_prompt_body s).raw_score =
      FastComplexityAnalyzer.analyze_data_size s * 0.4 +
      FastComplexityAnalyzer.analyze_operation_complexity s * 0.35 +
      FastComplexityAnalyzer.analyze_iterations s * 0.25 := rfl

/-- The raw score of the fast analyzer body lies in [0, 1]. -/
theorem fast_body_raw_bounds (s : String) :
    0 ≤ (FastComplexityAnalyzer.analyze_prompt_body s).raw_score ∧
    (FastComplexityAnalyzer.analyze_prompt_body s).raw_score ≤ 1 := by
  rw [fast_body_raw_score]
  have ho := fast_op_bounds s
  rcases fast_data_size_cases s with h | h | h <;>
    rcases fast_iter_cases s with h2 | h2 | h2 <;>
      rw [h, h2] <;>
        exact ⟨by linarith [ho.1, ho.2], by linarith [ho.1, ho.2]⟩

/-- C6: each estimator implementation returns a score in the closed
interval [0, 1] on every input: the module-level estimator (for any
logarithm backend), the class estimator, and the fast analyzer (whose
`raw_score` stays in [0, 1] on both its normal and its exception path). -/
theorem C6_estimates_in_unit_interval :
    (∀ (lg : ℚ → ℚ → ℚ) (s : String),
      0 ≤ estimate_complexity lg s ∧ estimate_complexity lg s ≤ 1)
  ∧ (∀ s : String,
      0 ≤ ComplexityAnalyzer.estimate_complexity s ∧
      ComplexityAnalyzer.estimate_complexity s ≤ 1)
  ∧ (∀ v : PyInput,
      0 ≤ (FastComplexityAnalyzer.analyze_prompt v).1.raw_score ∧
      (FastComplexityAnalyzer.analyze_prompt v).1.raw_score ≤ 1) := by
  refine ⟨?_, ?_, ?_⟩
  · intro lg s
    unfold estimate_complexity
    split_ifs with h
    · constructor <;> norm_num
    · constructor
      · exact le_trans (by norm_num) (le_max_left 0.0 _)
      · exact max_le (by norm_num) (le_trans (min_le_left _ _) (by norm_num))
  · intro s
    unfold ComplexityAnalyzer.estimate_complexity
    constructor
    · exact le_min (by norm_num) (le_trans (by norm_num) (le_max_left 0.0 _))
    · exact le_trans (min_le_left _ _) (by norm_num)
  · intro v
    cases v with
    | pyStr s => exact fast_body_raw_bounds s
    | pyNone =>
      constructor <;>
        norm_num [FastComplexityAnalyzer.analyze_prompt,
          FastComplexityAnalyzer.analyze_prompt_run]

/-- C8: whenever the analysis body raises, `analyze_prompt` does not
propagate the exception: it returns the documented safe default
(raw score 0.3 with the low-tier settings) and logs the failure. -/
theorem C8_safe_default :
    ∀ (v : PyInput) (e : String),
      FastComplexityAnalyzer.analyze_prompt_run v = .error e →
      FastComplexityAnalyzer.analyze_prompt v =
        (⟨0.3, 80, 60, 4000, 1200, "low"⟩, true) := by
  intro v e h
  unfold FastComplexityAnalyzer.analyze_prompt
  rw [h]

/-- Witness for C8 at a malformed (non-string) input. -/
theorem C8_safe_default_witness :
    FastComplexityAnalyzer.analyze_prompt .pyNone =
      (⟨0.3, 80, 60, 4000, 1200, "low"⟩, true) :=
  C8_safe_default .pyNone "AttributeError: NoneType has no attribute lower" rfl

end GPUCons
